import Mathlib

/-!
Verification development for the `monotrail-resolve` prototype resolver.

The repository sources under scrutiny are `resolve_prototype/sdist.py`
(the sdist build driver) and `test/test_resolve.py` (the test suite that
pins the observable behaviour of `resolve_prototype/resolve.py` and
`resolve_prototype/common.py`).  Pure parts of the Python code are
embedded as Lean functions; effectful parts (network, extraction,
subprocesses, the on-disk cache) are embedded as explicit state passing
over an oracle world, with an effect trace recording the I/O the code
performs.
-/

set_option maxHeartbeats 1000000

namespace MonotrailResolve

/-! ## Requirement model and the fixup function

`parse_requirement_fixup` lives in `resolve_prototype/resolve.py`.  The
requirement grammar itself is parsed by the external `pep508_rs` module.
Both are modelled below from the spec; the exact warning text is taken
from `test/test_resolve.py::test_parse_requirement_fixup`.
-/

/-- A parsed requirement: package name plus list of (operator, version)
version-specifier clauses.  Extras and markers are irrelevant to the
claims and elided. -/
structure Requirement where
  name : String
  specifiers : List (String × String)
deriving DecidableEq, Repr

def nameChar (c : Char) : Bool :=
  c.isAlphanum || c = '-' || c = '_' || c = '.'

def versionChar (c : Char) : Bool :=
  c.isAlphanum || c = '.' || c = '*' || c = '+' || c = '!' || c = '-' || c = '_'

def spaceChar (c : Char) : Bool := c = ' '

/-- Parse one PEP 440 comparison operator off the front of the input. -/
def parseOp : List Char → Option (String × List Char)
  | '=' :: '=' :: '=' :: rest => some ("===", rest)
  | '=' :: '=' :: rest => some ("==", rest)
  | '!' :: '=' :: rest => some ("!=", rest)
  | '<' :: '=' :: rest => some ("<=", rest)
  | '>' :: '=' :: rest => some (">=", rest)
  | '~' :: '=' :: rest => some ("~=", rest)
  | '<' :: rest => some ("<", rest)
  | '>' :: rest => some (">", rest)
  | _ => none

/-- Parse a comma-separated list of specifier clauses.  Strict: after a
clause, only `,` continues the list; anything else ends it and is left
for the caller to validate.  Fuel bounds the recursion by input length. -/
def parseSpecs : Nat → List Char → Option (List (String × String) × List Char)
  | 0, _ => none
  | fuel + 1, cs₀ =>
    let cs := cs₀.dropWhile spaceChar
    match parseOp cs with
    | none => none
    | some (op, cs₁) =>
      let cs₂ := cs₁.dropWhile spaceChar
      let ver := cs₂.takeWhile versionChar
      if ver.isEmpty then none
      else
        let cs₃ := (cs₂.drop ver.length).dropWhile spaceChar
        match cs₃ with
        | ',' :: rest =>
          match parseSpecs fuel rest with
          | some (more, rem) => some ((op, String.mk ver) :: more, rem)
          | none => none
        | _ => some ([(op, String.mk ver)], cs₃)

/-- Modelled from the spec: strict requirement parsing is done by the
external `pep508_rs.Requirement` constructor, which is not part of this
repository.  Accepts `name`, `name (specs)` and `name specs`; rejects a
specifier list in which two bound tokens are adjacent without a comma. -/
def strictParse (s : String) : Option Requirement :=
  let cs := s.data.dropWhile spaceChar
  let name := cs.takeWhile nameChar
  if name.isEmpty then none
  else
    let rest := (cs.drop name.length).dropWhile spaceChar
    match rest with
    | [] => some ⟨String.mk name, []⟩
    | '(' :: inner =>
      match parseSpecs (inner.length + 1) inner with
      | some (specs, rem) =>
        match rem with
        | ')' :: after =>
          if (after.dropWhile spaceChar).isEmpty then some ⟨String.mk name, specs⟩
          else none
        | _ => none
      | none => none
    | other =>
      match parseSpecs (other.length + 1) other with
      | some (specs, rem) =>
        if (rem.dropWhile spaceChar).isEmpty then some ⟨String.mk name, specs⟩
        else none
      | none => none

/-- The single repair: insert a comma wherever a comparator character
directly follows a digit of a release segment. -/
def repairChars : List Char → List Char
  | [] => []
  | [c] => [c]
  | c₁ :: c₂ :: rest =>
    if c₁.isDigit && (c₂ = '<' || c₂ = '>' || c₂ = '=' || c₂ = '!' || c₂ = '~') then
      c₁ :: ',' :: repairChars (c₂ :: rest)
    else
      c₁ :: repairChars (c₂ :: rest)

def repairString (s : String) : String := String.mk (repairChars s.data)

/-- Warning text emitted when the repair succeeds, as pinned by
`test_parse_requirement_fixup`. -/
def fixupWarning (requirement debug_source : String) : String :=
  "Requirement `" ++ requirement ++ "` for " ++ debug_source
    ++ " is invalid (missing comma)"

/-- Modelled from the spec: `parse_requirement_fixup` lives in
`resolve_prototype/resolve.py`, which is absent from the sources; it
tries strict parsing, on failure applies the single comma repair, and if
the repaired string parses emits exactly one warning naming the raw
string and the context; otherwise the original error surfaces (`none`
with no warning here).  Returns (parse result, emitted warnings). -/
def parse_requirement_fixup (requirement debug_source : String) :
    Option Requirement × List String :=
  match strictParse requirement with
  | some r => (some r, [])
  | none =>
    match strictParse (repairString requirement) with
    | some r => (some r, [fixupWarning requirement debug_source])
    | none => (none, [])

/-! ## Canonical package names -/

/-- Collapse runs of `-` to a single `-`. -/
def collapseDashes (l : List Char) : List Char :=
  l.foldr
    (fun c acc =>
      if c = '-' then
        match acc with
        | '-' :: _ => acc
        | _ => c :: acc
      else c :: acc)
    []

/-- Modelled from the spec: canonical package-name form (the
normalization lives in `resolve_prototype/common.py` / `pep508_rs`,
absent from the sources): lowercased, with runs of `-`/`_`/`.` collapsed
to a single `-`. -/
def canonicalName (s : String) : String :=
  String.mk (collapseDashes (s.data.map
    (fun c => if c = '-' ∨ c = '_' ∨ c = '.' then '-' else c.toLower)))

/-! ## Expected resolution output of test_meine_stadt_transparent -/

/-- The pinned (name, version) pairs asserted by
`test_resolve.py::test_meine_stadt_transparent` as the output of
`resolve(Requirement("meine_stadt_transparent"), ...)`, in the asserted
order. -/
def meineStadtPackages : List (String × String) := [
  ("Django", "4.0.10"),
  ("Flask", "2.2.3"),
  ("Jinja2", "3.1.2"),
  ("MarkupSafe", "2.1.2"),
  ("Pillow", "9.4.0"),
  ("PyJWT", "2.6.0"),
  ("PyPDF2", "2.12.1"),
  ("Unidecode", "1.3.6"),
  ("Wand", "0.6.11"),
  ("Werkzeug", "2.2.3"),
  ("Willow", "1.4.1"),
  ("XlsxWriter", "3.0.9"),
  ("anyascii", "0.3.2"),
  ("arrow", "1.2.3"),
  ("asgiref", "3.6.0"),
  ("backports.zoneinfo", "0.2.1"),
  ("beautifulsoup4", "4.9.3"),
  ("blessed", "1.20.0"),
  ("certifi", "2022.12.7"),
  ("cffi", "1.15.1"),
  ("charset-normalizer", "3.1.0"),
  ("click", "8.1.3"),
  ("cryptography", "39.0.2"),
  ("defusedxml", "0.7.1"),
  ("django-allauth", "0.51.0"),
  ("django-anymail", "8.6"),
  ("django-csp", "3.7"),
  ("django-decorator-include", "3.0"),
  ("django-elasticsearch-dsl", "7.2.2"),
  ("django-environ", "0.9.0"),
  ("django-filter", "21.1"),
  ("django-geojson", "3.2.1"),
  ("django-modelcluster", "6.0"),
  ("django-permissionedforms", "0.1"),
  ("django-picklefield", "3.1"),
  ("django-q", "1.3.9"),
  ("django-q-sentry", "0.1.6"),
  ("django-settings-export", "1.2.1"),
  ("django-simple-history", "3.3.0"),
  ("django-taggit", "2.1.0"),
  ("django-treebeard", "4.6.1"),
  ("django-webpack-loader", "1.6.0"),
  ("django-widget-tweaks", "1.4.12"),
  ("djangorestframework", "3.14.0"),
  ("draftjs-exporter", "2.1.7"),
  ("elasticsearch", "7.10.1"),
  ("elasticsearch-dsl", "7.4.1"),
  ("et-xmlfile", "1.1.0"),
  ("geoextract", "0.3.1"),
  ("geographiclib", "2.0"),
  ("geopy", "2.3.0"),
  ("gunicorn", "20.1.0"),
  ("html2text", "2020.1.16"),
  ("html5lib", "1.1"),
  ("icalendar", "4.1.0"),
  ("idna", "3.4"),
  ("importlib-metadata", "6.1.0"),
  ("itsdangerous", "2.1.2"),
  ("joblib", "1.2.0"),
  ("jsonfield", "3.1.0"),
  ("l18n", "2021.3"),
  ("meine-stadt-transparent", "0.2.14"),
  ("minio", "7.1.13"),
  ("mysqlclient", "2.1.1"),
  ("nltk", "3.8.1"),
  ("numpy", "1.24.2"),
  ("oauthlib", "3.2.2"),
  ("openpyxl", "3.1.2"),
  ("osm2geojson", "0.2.3"),
  ("psycopg2", "2.9.5"),
  ("pyahocorasick", "2.0.0"),
  ("pycparser", "2.21"),
  ("python-dateutil", "2.8.2"),
  ("python-slugify", "6.1.2"),
  ("python3-openid", "3.2.0"),
  ("pytz", "2022.7.1"),
  ("redis", "3.5.3"),
  ("regex", "2023.3.23"),
  ("requests", "2.28.2"),
  ("requests-oauthlib", "1.3.1"),
  ("scipy", "1.10.1"),
  ("sentry-sdk", "1.17.0"),
  ("shapely", "2.0.1"),
  ("six", "1.16.0"),
  ("soupsieve", "2.4"),
  ("splinter", "0.17.0"),
  ("sqlparse", "0.4.3"),
  ("tablib", "3.3.0"),
  ("telepath", "0.3"),
  ("text-unidecode", "1.3"),
  ("tqdm", "4.65.0"),
  ("typing-extensions", "4.5.0"),
  ("urllib3", "1.26.15"),
  ("wagtail", "3.0.3"),
  ("wcwidth", "0.2.6"),
  ("webencodings", "0.5.1"),
  ("xlrd", "2.0.1"),
  ("xlwt", "1.3.0"),
  ("zipp", "3.15.0")]

/-! ## Executable lexicographic string comparison

Mathlib's `Decidable` instances for `String` order are stated via
`String.ltb` and do not reduce in the kernel, so sortedness of the
concrete 99-package list is checked by an executable comparator that is
then bridged to the standard order. -/

def charLtBool (a b : Char) : Bool := Nat.blt a.toNat b.toNat

def lexCharsBool : List Char → List Char → Bool
  | [], [] => false
  | [], _ :: _ => true
  | _ :: _, [] => false
  | a :: as, b :: bs =>
    if charLtBool a b then true
    else if a = b then lexCharsBool as bs
    else false

def stringLtBool (a b : String) : Bool := lexCharsBool a.data b.data

def stringLeBool (a b : String) : Bool := !(stringLtBool b a)

/-- Boolean check that a list of strings is sorted under `leb`. -/
def sortedByBool (leb : String → String → Bool) : List String → Bool
  | [] => true
  | [_] => true
  | a :: b :: rest => leb a b && sortedByBool leb (b :: rest)

theorem charLtBool_iff (a b : Char) : charLtBool a b = true ↔ a < b := by
  rw [charLtBool, Nat.blt_eq]
  exact Iff.rfl

theorem lexCharsBool_iff :
    ∀ l₁ l₂ : List Char, lexCharsBool l₁ l₂ = true ↔ List.Lex (· < ·) l₁ l₂ := by
  intro l₁
  induction l₁ with
  | nil =>
    intro l₂
    cases l₂ with
    | nil => simp [lexCharsBool]
    | cons b bs => simpa [lexCharsBool] using List.Lex.nil
  | cons a as ih =>
    intro l₂
    cases l₂ with
    | nil =>
      simp [lexCharsBool, List.Lex.not_nil_right]
    | cons b bs =>
      show (if charLtBool a b then true
            else if a = b then lexCharsBool as bs else false) = true ↔ _
      by_cases hlt : charLtBool a b = true
      · rw [if_pos hlt]
        exact iff_of_true rfl (List.Lex.rel ((charLtBool_iff a b).mp hlt))
      · rw [if_neg hlt]
        by_cases heq : a = b
        · subst heq
          rw [if_pos rfl, ih bs]
          exact List.Lex.cons_iff.symm
        · rw [if_neg heq]
          constructor
          · intro h
            exact Bool.noConfusion h
          · intro h
            cases h with
            | cons h₂ => exact absurd rfl heq
            | rel h₂ => exact absurd ((charLtBool_iff a b).mpr h₂) hlt

theorem stringLtBool_iff (a b : String) : stringLtBool a b = true ↔ a < b := by
  rw [String.lt_iff_toList_lt]
  exact lexCharsBool_iff a.data b.data

theorem stringLeBool_iff (a b : String) : stringLeBool a b = true ↔ a ≤ b := by
  rw [stringLeBool, Bool.not_eq_true']
  constructor
  · intro h hba
    rw [← stringLtBool_iff b a] at hba
    simp [hba] at h
  · intro h
    by_contra hne
    rw [Bool.not_eq_false, stringLtBool_iff b a] at hne
    exact h hne

theorem chain_of_sortedByBool {leb : String → String → Bool}
    {le : String → String → Prop} (hiff : ∀ a b, leb a b = true ↔ le a b) :
    ∀ l : List String, sortedByBool leb l = true → List.Chain' le l := by
  intro l
  induction l with
  | nil => intro _; exact List.chain'_nil
  | cons a rest ih =>
    cases rest with
    | nil => intro _; exact List.chain'_singleton a
    | cons b rest2 =>
      intro h
      rw [sortedByBool, Bool.and_eq_true] at h
      exact List.Chain'.cons ((hiff a b).mp h.1) (ih h.2)

theorem sortedByBool_of_chain {leb : String → String → Bool}
    {le : String → String → Prop} (hiff : ∀ a b, leb a b = true ↔ le a b) :
    ∀ l : List String, List.Chain' le l → sortedByBool leb l = true := by
  intro l
  induction l with
  | nil => intro _; rfl
  | cons a rest ih =>
    cases rest with
    | nil => intro _; rfl
    | cons b rest2 =>
      intro h
      rcases List.chain'_cons.mp h with ⟨hab, htl⟩
      rw [sortedByBool, Bool.and_eq_true]
      exact ⟨(hiff a b).mpr hab, ih htl⟩

/-! ## Sdist build driver (`resolve_prototype/sdist.py`)

The effectful Python code is embedded as explicit state passing: the
network, archive extraction and the build backend are oracles supplied
as arguments, and an effect trace records the I/O performed. -/

/-- Process environment, as an association list of variable/value pairs. -/
def Env : Type := List (String × String)

/-- Python `dict.copy()` followed by `dict.update(overrides)`: keys of
`base` keep their position (overridden values replace the old ones), and
keys only in `overrides` are appended. -/
def envUpdate (base overrides : List (String × String)) : List (String × String) :=
  base.map (fun p =>
    match overrides.find? (fun q => q.1 = p.1) with
    | some q => (p.1, q.2)
    | none => p)
  ++ overrides.filter (fun q => (base.find? (fun p => p.1 = q.1)).isNone)

/-- Outcome of one spawned subprocess: its output streams plus exit code. -/
structure SubprocOutcome where
  stdout : String
  stderr : String
  returncode : Int
deriving DecidableEq, Repr

/-- The accumulated stdout/stderr of a `ProjectHooksCaptureOutput`
instance. -/
structure CaptureState where
  stdout : String
  stderr : String
deriving DecidableEq, Repr

/-- One runner call made by the build backend: command, working
directory and extra environment overrides. -/
structure Invocation where
  cmd : List String
  cwd : Option String
  extra_environ : Option (List (String × String))

/-- Oracle giving the outcome of spawning a subprocess with a given
command, working directory and environment. -/
def RunOracle : Type :=
  List String → Option String → List (String × String) → SubprocOutcome

/-- The environment `subprocess_runner` passes to `run`: `os.environ`
copied, then updated with `extra_environ` when that is given and
nonempty (Python truthiness of the dict). -/
def effectiveEnv (osEnviron : List (String × String)) :
    Option (List (String × String)) → List (String × String)
  | some extra => if extra.isEmpty then osEnviron else envUpdate osEnviron extra
  | none => osEnviron

/-- `ProjectHooksCaptureOutput.subprocess_runner` (sdist.py lines
26-35): build the explicit environment, spawn the process, append its
captured output to the accumulator, then `check_returncode` (a non-zero
exit code raises `CalledProcessError`, here `Except.error` carrying the
code). -/
def subprocess_runner (run : RunOracle) (osEnviron : List (String × String))
    (st : CaptureState) (cmd : List String) (cwd : Option String)
    (extra_environ : Option (List (String × String))) :
    CaptureState × Except Int Unit :=
  let env := effectiveEnv osEnviron extra_environ
  let result := run cmd cwd env
  let st2 : CaptureState :=
    ⟨st.stdout ++ result.stdout, st.stderr ++ result.stderr⟩
  (st2,
   if result.returncode = 0 then Except.ok () else Except.error result.returncode)

/-- Run the backend's runner calls in order through `subprocess_runner`,
stopping at the first failing one; returns the final capture state and
the exit code of the failing call, if any. -/
def runSubprocesses (run : RunOracle) (osEnviron : List (String × String)) :
    CaptureState → List Invocation → CaptureState × Option Int
  | st, [] => (st, none)
  | st, inv :: rest =>
    match subprocess_runner run osEnviron st inv.cmd inv.cwd inv.extra_environ with
    | (st2, Except.ok ()) => runSubprocesses run osEnviron st2 rest
    | (st2, Except.error code) => (st2, some code)

/-- A release file, with the fields of `pypi_releases.File` that
`build_sdist` uses. -/
structure File where
  filename : String
  url : String
deriving DecidableEq, Repr

/-- I/O steps of `build_sdist_impl`, in program order: download the
archive, unpack it, run the build backend. -/
inductive Effect where
  | download (url : String)
  | extract (filename : String)
  | runBackend (filename : String)
deriving DecidableEq, Repr

/-- Oracle description of everything outside the control flow of
`build_sdist_impl`: the top-level entries the downloaded archive
extracts to, the runner calls the build backend makes, the entries of
the produced metadata directory, and the metadata JSON string (the
`json.dumps` of `Distribution.at(dist_info).metadata.json`). -/
structure SdistWorld where
  archiveEntries : List String
  invocations : List Invocation
  metadataDirEntries : List String
  producedMetadata : String

/-- The string form of the `CalledProcessError` interpolated into the
build-failure message. -/
def calledProcessErrorMsg (code : Int) : String :=
  "Command returned non-zero exit status " ++ toString code ++ "."

/-- The `RuntimeError` message raised at sdist.py lines 114-119. -/
def buildFailureMsg (filename errDesc stdout stderr : String) : String :=
  "Failed to build metadata for " ++ filename ++ ": " ++ errDesc ++ "\n"
    ++ "--- Stdout:\n" ++ stdout ++ "\n"
    ++ "--- Stderr:\n" ++ stderr ++ "\n"
    ++ "---\n"

/-- The `RuntimeError` message raised at sdist.py lines 80-83. -/
def parseFailureMsg (filename : String) : String :=
  "Failed to parse sdist built metadata for " ++ filename
    ++ ", this is most likely a bug"

/-- Errors raised on the sdist build path, one constructor per `raise`
site: the two `ValueError`s from list destructuring, the build-failure
`RuntimeError` of `build_sdist_impl` (the spec's
`PermanentBuildFailure`), and the parse-failure `RuntimeError` of
`build_sdist` (the spec's `MetadataCorrupt`). -/
inductive SdistError where
  | extractionError (entries : List String)
  | buildFailure (message : String)
  | distInfoError (entries : List String)
  | metadataCorrupt (message : String)
deriving DecidableEq, Repr

/-- Suffix test on strings, by characters (the embedding of Python's
`str.endswith`). -/
def strEndsWith (s suffix : String) : Bool :=
  Nat.ble suffix.data.length s.data.length
    && decide (s.data.drop (s.data.length - suffix.data.length) = suffix.data)

/-- `build_sdist_impl` (sdist.py lines 88-129): download, extract,
require exactly one top-level entry, run the build backend capturing
output and failing on a non-zero exit, require exactly one `.dist-info`
entry in the metadata directory, and return the metadata JSON.  The
second component is the trace of I/O effects performed. -/
def build_sdist_impl (run : RunOracle) (osEnviron : List (String × String))
    (w : SdistWorld) (file : File) :
    Except SdistError (String × CaptureState) × List Effect :=
  match w.archiveEntries with
  | [_srcDir] =>
    match runSubprocesses run osEnviron ⟨"", ""⟩ w.invocations with
    | (capture, none) =>
      match w.metadataDirEntries.filter (fun x => strEndsWith x ".dist-info") with
      | [_distInfo] =>
        (Except.ok (w.producedMetadata, capture),
         [Effect.download file.url, Effect.extract file.filename,
          Effect.runBackend file.filename])
      | other =>
        (Except.error (SdistError.distInfoError other),
         [Effect.download file.url, Effect.extract file.filename,
          Effect.runBackend file.filename])
    | (capture, some code) =>
      (Except.error (SdistError.buildFailure
         (buildFailureMsg file.filename (calledProcessErrorMsg code)
            capture.stdout capture.stderr)),
       [Effect.download file.url, Effect.extract file.filename,
        Effect.runBackend file.filename])
  | other =>
    (Except.error (SdistError.extractionError other),
     [Effect.download file.url, Effect.extract file.filename])

/-- Modelled from the spec: the two-level `(namespace, key) → value`
cache of `resolve_prototype/common.py` (absent from the sources), with a
read-only mode that skips writes and a disabled mode that skips both.
New entries are consed onto the front. -/
structure Cache where
  read : Bool
  write : Bool
  entries : List ((String × String) × String)
deriving DecidableEq, Repr

def Cache.get (c : Cache) (ns key : String) : Option String :=
  if c.read then
    (c.entries.find? (fun e => e.1 = (ns, key))).map (fun e => e.2)
  else none

def Cache.set (c : Cache) (ns key value : String) : Cache :=
  if c.write then { c with entries := ((ns, key), value) :: c.entries } else c

/-- The cache hit `build_sdist` observes: Python's `if metadata :=
cache.get(...)` treats both a missing key and an empty cached string as
a miss (string truthiness). -/
def cachedMetadata (cache : Cache) (filename : String) : Option String :=
  match cache.get "sdist_build_metadata" (filename ++ ".METADATA.json") with
  | some v => if v = "" then none else some v
  | none => none

/-- `build_sdist` (sdist.py lines 61-85): on a cache hit return the
cached JSON parsed, performing no I/O; on a miss run `build_sdist_impl`,
store the produced JSON under `filename + ".METADATA.json"` in the
`"sdist_build_metadata"` namespace, and parse that same string.  A parse
failure raises the `MetadataCorrupt` error.  `parse_metadata` is the
external `pypi_types.pypi_metadata.parse_metadata`, abstract here.
Returns (result, cache afterwards, I/O effects performed). -/
def build_sdist {Metadata : Type} (parse_metadata : String → Option Metadata)
    (run : RunOracle) (osEnviron : List (String × String)) (w : SdistWorld)
    (file : File) (cache : Cache) :
    Except SdistError Metadata × Cache × List Effect :=
  match cachedMetadata cache file.filename with
  | some metadata =>
    (match parse_metadata metadata with
     | some m => Except.ok m
     | none =>
       Except.error (SdistError.metadataCorrupt (parseFailureMsg file.filename)),
     cache, [])
  | none =>
    match build_sdist_impl run osEnviron w file with
    | (Except.ok (json_metadata, _capture), effects) =>
      let cache2 := cache.set "sdist_build_metadata"
        (file.filename ++ ".METADATA.json") json_metadata
      (match parse_metadata json_metadata with
       | some m => Except.ok m
       | none =>
         Except.error (SdistError.metadataCorrupt (parseFailureMsg file.filename)),
       cache2, effects)
    | (Except.error e, effects) => (Except.error e, cache, effects)


/-! ## Claim theorems: output order and requirement fixup -/

/-- C1, counterexample: the resolution output asserted by
`test_meine_stadt_transparent` is not sorted ascending by canonical
package name — e.g. `"XlsxWriter"` (canonical `"xlsxwriter"`) precedes
`"anyascii"` in it. -/
theorem c1_resolve_output_not_canonically_sorted :
    ¬ List.Chain' (fun a b => canonicalName a ≤ canonicalName b)
      (meineStadtPackages.map Prod.fst) := by
  intro h
  have hb := sortedByBool_of_chain
    (fun a b => stringLeBool_iff (canonicalName a) (canonicalName b))
    (meineStadtPackages.map Prod.fst) h
  exact absurd hb (by decide)

/-- C1, amended: the pinned (name, version) pairs returned by `resolve`
(as pinned by `test_meine_stadt_transparent`) are sorted strictly
ascending by the raw display package name in code-point lexicographic
order (so every uppercase-initial name precedes every lowercase-initial
one), not by the canonical form of the name. -/
theorem c1_resolve_output_sorted_by_raw_name :
    List.Chain' (fun a b : String => a < b) (meineStadtPackages.map Prod.fst) :=
  chain_of_sortedByBool (fun a b => stringLtBool_iff a b)
    (meineStadtPackages.map Prod.fst) (by decide)

/-- C2: `parse_requirement_fixup` on the malformed
`"elasticsearch-dsl (>=7.2.0<8.0.0)"` with context
`"django-elasticsearch-dsl 7.2.2"` succeeds after the single comma
repair; its specifiers equal those of the correctly spelled
`"elasticsearch-dsl (>=7.2.0,<8.0.0)"`; exactly one warning is emitted
and it names the raw string and the context, while the correctly
spelled string parses strictly with no warning. -/
theorem c2_fixup_elasticsearch_dsl :
    (parse_requirement_fixup "elasticsearch-dsl (>=7.2.0<8.0.0)"
        "django-elasticsearch-dsl 7.2.2").2
      = [fixupWarning "elasticsearch-dsl (>=7.2.0<8.0.0)"
          "django-elasticsearch-dsl 7.2.2"] ∧
    (parse_requirement_fixup "elasticsearch-dsl (>=7.2.0,<8.0.0)"
        "django-elasticsearch-dsl 7.2.2").2 = [] ∧
    ((parse_requirement_fixup "elasticsearch-dsl (>=7.2.0<8.0.0)"
        "django-elasticsearch-dsl 7.2.2").1.map Requirement.specifiers)
      = ((parse_requirement_fixup "elasticsearch-dsl (>=7.2.0,<8.0.0)"
        "django-elasticsearch-dsl 7.2.2").1.map Requirement.specifiers) ∧
    (parse_requirement_fixup "elasticsearch-dsl (>=7.2.0<8.0.0)"
        "django-elasticsearch-dsl 7.2.2").1.isSome = true ∧
    fixupWarning "elasticsearch-dsl (>=7.2.0<8.0.0)"
        "django-elasticsearch-dsl 7.2.2"
      = "Requirement `elasticsearch-dsl (>=7.2.0<8.0.0)` for django-elasticsearch-dsl 7.2.2 is invalid (missing comma)" := by
  decide

/-- C7: fixup stability.  A strictly parsing requirement string is
returned as parsed, with no warning; and for a string that the single
repair fixes, the repaired string itself parses strictly to the same
requirement, so a second application of the fixup returns the same
result with no further warning (idempotence on the range). -/
theorem c7_fixup_stability :
    (∀ s ctx r, strictParse s = some r →
        parse_requirement_fixup s ctx = (some r, [])) ∧
    (∀ s ctx r, strictParse s = none → strictParse (repairString s) = some r →
        parse_requirement_fixup s ctx = (some r, [fixupWarning s ctx]) ∧
        parse_requirement_fixup (repairString s) ctx = (some r, [])) := by
  constructor
  · intro s ctx r h
    simp [parse_requirement_fixup, h]
  · intro s ctx r h₁ h₂
    constructor
    · simp [parse_requirement_fixup, h₁, h₂]
    · simp [parse_requirement_fixup, h₂]

/-- Witness for C7 at the concrete strings of
`test_parse_requirement_fixup`. -/
theorem c7_fixup_stability_witness :
    parse_requirement_fixup "elasticsearch-dsl (>=7.2.0,<8.0.0)" "ctx"
      = (some ⟨"elasticsearch-dsl", [(">=", "7.2.0"), ("<", "8.0.0")]⟩, []) ∧
    parse_requirement_fixup (repairString "elasticsearch-dsl (>=7.2.0<8.0.0)") "ctx"
      = (some ⟨"elasticsearch-dsl", [(">=", "7.2.0"), ("<", "8.0.0")]⟩, []) :=
  ⟨c7_fixup_stability.1 "elasticsearch-dsl (>=7.2.0,<8.0.0)" "ctx"
      ⟨"elasticsearch-dsl", [(">=", "7.2.0"), ("<", "8.0.0")]⟩ (by decide),
   (c7_fixup_stability.2 "elasticsearch-dsl (>=7.2.0<8.0.0)" "ctx"
      ⟨"elasticsearch-dsl", [(">=", "7.2.0"), ("<", "8.0.0")]⟩
      (by decide) (by decide)).2⟩


/-! ## Helper lemmas for the sdist driver -/

theorem build_sdist_hit {M : Type} (pm : String → Option M) (run : RunOracle)
    (osEnviron : List (String × String)) (w : SdistWorld) (file : File)
    (cache : Cache) (v : String)
    (h : cachedMetadata cache file.filename = some v) :
    build_sdist pm run osEnviron w file cache
      = ((match pm v with
          | some m => Except.ok m
          | none => Except.error
              (SdistError.metadataCorrupt (parseFailureMsg file.filename))),
         cache, []) := by
  unfold build_sdist
  rw [h]

theorem build_sdist_miss_ok {M : Type} (pm : String → Option M) (run : RunOracle)
    (osEnviron : List (String × String)) (w : SdistWorld) (file : File)
    (cache : Cache) (j : String) (cap : CaptureState) (effs : List Effect)
    (h : cachedMetadata cache file.filename = none)
    (himpl : build_sdist_impl run osEnviron w file = (Except.ok (j, cap), effs)) :
    build_sdist pm run osEnviron w file cache
      = ((match pm j with
          | some m => Except.ok m
          | none => Except.error
              (SdistError.metadataCorrupt (parseFailureMsg file.filename))),
         cache.set "sdist_build_metadata" (file.filename ++ ".METADATA.json") j,
         effs) := by
  unfold build_sdist
  rw [h, himpl]

theorem build_sdist_miss_error {M : Type} (pm : String → Option M) (run : RunOracle)
    (osEnviron : List (String × String)) (w : SdistWorld) (file : File)
    (cache : Cache) (e : SdistError) (effs : List Effect)
    (h : cachedMetadata cache file.filename = none)
    (himpl : build_sdist_impl run osEnviron w file = (Except.error e, effs)) :
    build_sdist pm run osEnviron w file cache = (Except.error e, cache, effs) := by
  unfold build_sdist
  rw [h, himpl]

theorem cachedMetadata_after_set (cache : Cache) (filename j : String)
    (hread : cache.read = true) (hwrite : cache.write = true) (hne : j ≠ "") :
    cachedMetadata
        (cache.set "sdist_build_metadata" (filename ++ ".METADATA.json") j)
        filename = some j := by
  simp [cachedMetadata, Cache.get, Cache.set, hread, hwrite, List.find?, hne]

/-! ## Claim theorems: the sdist build driver -/

/-- C4: when extraction yields zero or more than one top-level entry,
`build_sdist_impl` fails with the extraction error and never runs the
build backend (the effect trace holds only the download and the
extraction). -/
theorem c4_single_toplevel_entry_required (run : RunOracle)
    (osEnviron : List (String × String)) (w : SdistWorld) (file : File)
    (h : w.archiveEntries.length ≠ 1) :
    build_sdist_impl run osEnviron w file
      = (Except.error (SdistError.extractionError w.archiveEntries),
         [Effect.download file.url, Effect.extract file.filename]) := by
  match hw : w.archiveEntries with
  | [] => simp [build_sdist_impl, hw]
  | [a] => exact absurd (by simp [hw]) h
  | a :: b :: rest => simp [build_sdist_impl, hw]

/-- Witness for C4: an archive extracting to two top-level entries. -/
theorem c4_witness :
    build_sdist_impl (fun _ _ _ => ⟨"", "", 0⟩) []
        ⟨["pkg", "stray"], [], [], "meta"⟩ ⟨"pkg-1.0.tar.gz", "https://u"⟩
      = (Except.error (SdistError.extractionError ["pkg", "stray"]),
         [Effect.download "https://u", Effect.extract "pkg-1.0.tar.gz"]) :=
  c4_single_toplevel_entry_required _ _ _ _ (by decide)

/-- C5: when a build-backend subprocess exits non-zero,
`build_sdist_impl` raises the build-failure error whose message names
the sdist file and embeds the captured stdout and stderr accumulated up
to the failure. -/
theorem c5_build_failure_reports_output (run : RunOracle)
    (osEnviron : List (String × String)) (w : SdistWorld) (file : File)
    (d : String) (capture : CaptureState) (code : Int)
    (hw : w.archiveEntries = [d])
    (hr : runSubprocesses run osEnviron ⟨"", ""⟩ w.invocations
        = (capture, some code)) :
    (build_sdist_impl run osEnviron w file).1
      = Except.error (SdistError.buildFailure
          (buildFailureMsg file.filename (calledProcessErrorMsg code)
             capture.stdout capture.stderr)) ∧
    ∃ s₁ s₂ s₃ s₄,
      buildFailureMsg file.filename (calledProcessErrorMsg code)
          capture.stdout capture.stderr
        = s₁ ++ file.filename ++ s₂ ++ capture.stdout ++ s₃ ++ capture.stderr
            ++ s₄ := by
  constructor
  · simp [build_sdist_impl, hw, hr]
  · refine ⟨"Failed to build metadata for ",
      ": " ++ calledProcessErrorMsg code ++ "\n" ++ "--- Stdout:\n",
      "\n" ++ "--- Stderr:\n", "\n" ++ "---\n", ?_⟩
    simp [buildFailureMsg, String.append_assoc]

/-- Witness for C5: one backend subprocess exiting with status 1. -/
theorem c5_witness :
    (build_sdist_impl (fun _ _ _ => ⟨"out", "err", 1⟩) []
        ⟨["pkg"], [⟨["pip"], none, none⟩], [], "meta"⟩
        ⟨"pkg-1.0.tar.gz", "https://u"⟩).1
      = Except.error (SdistError.buildFailure
          (buildFailureMsg "pkg-1.0.tar.gz" (calledProcessErrorMsg 1)
            "out" "err")) ∧
    ∃ s₁ s₂ s₃ s₄,
      buildFailureMsg "pkg-1.0.tar.gz" (calledProcessErrorMsg 1) "out" "err"
        = s₁ ++ "pkg-1.0.tar.gz" ++ s₂ ++ "out" ++ s₃ ++ "err" ++ s₄ :=
  c5_build_failure_reports_output _ _ _ _ "pkg" ⟨"out", "err"⟩ 1 rfl (by decide)

/-- C9: after a successful backend run, `build_sdist_impl` returns the
metadata record only when the metadata directory holds exactly one
entry ending in `.dist-info`; zero or several such entries yield an
error instead. -/
theorem c9_single_dist_info_required (run : RunOracle)
    (osEnviron : List (String × String)) (w : SdistWorld) (file : File)
    (d : String) (capture : CaptureState)
    (hw : w.archiveEntries = [d])
    (hr : runSubprocesses run osEnviron ⟨"", ""⟩ w.invocations
        = (capture, none)) :
    (∀ x, w.metadataDirEntries.filter (fun e => strEndsWith e ".dist-info") = [x] →
        (build_sdist_impl run osEnviron w file).1
          = Except.ok (w.producedMetadata, capture)) ∧
    ((w.metadataDirEntries.filter (fun e => strEndsWith e ".dist-info")).length ≠ 1 →
        (build_sdist_impl run osEnviron w file).1
          = Except.error (SdistError.distInfoError
              (w.metadataDirEntries.filter (fun e => strEndsWith e ".dist-info")))) := by
  constructor
  · intro x hx
    simp [build_sdist_impl, hw, hr, hx]
  · intro hlen
    match hf : w.metadataDirEntries.filter (fun e => strEndsWith e ".dist-info") with
    | [] => simp [build_sdist_impl, hw, hr, hf]
    | [a] => exact absurd (by simp [hf]) hlen
    | a :: b :: rest => simp [build_sdist_impl, hw, hr, hf]

/-- Witness for C9: a metadata directory with exactly one `.dist-info`
entry on the success side, and one with none on the failure side. -/
theorem c9_witness :
    (build_sdist_impl (fun _ _ _ => ⟨"", "", 0⟩) []
        ⟨["pkg"], [], ["pkg-1.0.dist-info"], "meta"⟩
        ⟨"pkg-1.0.tar.gz", "https://u"⟩).1
      = Except.ok ("meta", ⟨"", ""⟩) ∧
    (build_sdist_impl (fun _ _ _ => ⟨"", "", 0⟩) []
        ⟨["pkg"], [], ["README"], "meta"⟩
        ⟨"pkg-1.0.tar.gz", "https://u"⟩).1
      = Except.error (SdistError.distInfoError []) :=
  ⟨(c9_single_dist_info_required (fun _ _ _ => ⟨"", "", 0⟩) []
      ⟨["pkg"], [], ["pkg-1.0.dist-info"], "meta"⟩ ⟨"pkg-1.0.tar.gz", "https://u"⟩
      "pkg" ⟨"", ""⟩ rfl rfl).1 "pkg-1.0.dist-info" (by decide),
   by
    have h := (c9_single_dist_info_required (fun _ _ _ => ⟨"", "", 0⟩) []
      ⟨["pkg"], [], ["README"], "meta"⟩ ⟨"pkg-1.0.tar.gz", "https://u"⟩
      "pkg" ⟨"", ""⟩ rfl rfl).2 (by decide)
    exact h.trans (congrArg
      (fun l => Except.error (SdistError.distInfoError l)) (by decide))⟩


/-- The stdout strings the oracle returns for the backend's runner
calls, concatenated in call order. -/
def invocationStdouts (run : RunOracle) (osEnviron : List (String × String)) :
    List Invocation → String
  | [] => ""
  | inv :: rest =>
    (run inv.cmd inv.cwd (effectiveEnv osEnviron inv.extra_environ)).stdout
      ++ invocationStdouts run osEnviron rest

/-- The stderr strings the oracle returns for the backend's runner
calls, concatenated in call order. -/
def invocationStderrs (run : RunOracle) (osEnviron : List (String × String)) :
    List Invocation → String
  | [] => ""
  | inv :: rest =>
    (run inv.cmd inv.cwd (effectiveEnv osEnviron inv.extra_environ)).stderr
      ++ invocationStderrs run osEnviron rest

/-- C6: every subprocess spawned by the capture runner receives the
explicit environment `os.environ` updated with the caller-supplied
overrides, and its stdout/stderr are appended to the capture state;
across one whole build the capture accumulates the outputs of all
runner calls in call order. -/
theorem c6_subprocess_env_and_capture :
    (∀ (run : RunOracle) (osEnviron : List (String × String))
        (st : CaptureState) (cmd : List String) (cwd : Option String)
        (extra : List (String × String)), extra ≠ [] →
      subprocess_runner run osEnviron st cmd cwd (some extra)
        = (⟨st.stdout ++ (run cmd cwd (envUpdate osEnviron extra)).stdout,
            st.stderr ++ (run cmd cwd (envUpdate osEnviron extra)).stderr⟩,
           if (run cmd cwd (envUpdate osEnviron extra)).returncode = 0
           then Except.ok ()
           else Except.error (run cmd cwd (envUpdate osEnviron extra)).returncode)) ∧
    (∀ (run : RunOracle) (osEnviron : List (String × String))
        (st : CaptureState) (invs : List Invocation),
      (runSubprocesses run osEnviron st invs).2 = none →
      (runSubprocesses run osEnviron st invs).1
        = ⟨st.stdout ++ invocationStdouts run osEnviron invs,
           st.stderr ++ invocationStderrs run osEnviron invs⟩) := by
  constructor
  · intro run osEnviron st cmd cwd extra hne
    cases extra with
    | nil => exact absurd rfl hne
    | cons p rest => rfl
  · intro run osEnviron st invs
    induction invs generalizing st with
    | nil =>
      intro _
      show st = ⟨st.stdout ++ "", st.stderr ++ ""⟩
      rw [String.append_empty, String.append_empty]
    | cons inv rest ih =>
      intro hnone
      rw [runSubprocesses] at hnone ⊢
      by_cases hrc :
          (run inv.cmd inv.cwd (effectiveEnv osEnviron inv.extra_environ)).returncode = 0
      · rw [show subprocess_runner run osEnviron st inv.cmd inv.cwd inv.extra_environ
            = (⟨st.stdout
                  ++ (run inv.cmd inv.cwd (effectiveEnv osEnviron inv.extra_environ)).stdout,
                st.stderr
                  ++ (run inv.cmd inv.cwd (effectiveEnv osEnviron inv.extra_environ)).stderr⟩,
               Except.ok ()) from by
          simp [subprocess_runner, hrc]] at hnone ⊢
        rw [ih _ hnone, invocationStdouts, invocationStderrs]
        simp [String.append_assoc]
      · rw [show subprocess_runner run osEnviron st inv.cmd inv.cwd inv.extra_environ
            = (⟨st.stdout
                  ++ (run inv.cmd inv.cwd (effectiveEnv osEnviron inv.extra_environ)).stdout,
                st.stderr
                  ++ (run inv.cmd inv.cwd (effectiveEnv osEnviron inv.extra_environ)).stderr⟩,
               Except.error
                 (run inv.cmd inv.cwd (effectiveEnv osEnviron inv.extra_environ)).returncode)
            from by simp [subprocess_runner, hrc]] at hnone
        exact absurd hnone (by simp)

/-- Witness for C6: one call with an override and a two-call build whose
outputs accumulate in order. -/
theorem c6_witness :
    subprocess_runner (fun c _ _ => if c = ["a"] then ⟨"o1", "e1", 0⟩ else ⟨"o2", "e2", 0⟩)
        [("PATH", "/bin")] ⟨"s", "t"⟩ ["a"] none (some [("X", "1")])
      = (⟨"so1", "te1"⟩, Except.ok ()) ∧
    (runSubprocesses (fun c _ _ => if c = ["a"] then ⟨"o1", "e1", 0⟩ else ⟨"o2", "e2", 0⟩)
        [("PATH", "/bin")] ⟨"", ""⟩ [⟨["a"], none, none⟩, ⟨["b"], none, none⟩]).1
      = ⟨"o1o2", "e1e2"⟩ := by
  constructor
  · have h := c6_subprocess_env_and_capture.1
      (fun c _ _ => if c = ["a"] then ⟨"o1", "e1", 0⟩ else ⟨"o2", "e2", 0⟩)
      [("PATH", "/bin")] ⟨"s", "t"⟩ ["a"] none [("X", "1")] (by decide)
    rw [h]
    rfl
  · have h := c6_subprocess_env_and_capture.2
      (fun c _ _ => if c = ["a"] then ⟨"o1", "e1", 0⟩ else ⟨"o2", "e2", 0⟩)
      [("PATH", "/bin")] ⟨"", ""⟩ [⟨["a"], none, none⟩, ⟨["b"], none, none⟩] (by decide)
    rw [h]
    decide


/-- C3: the sdist build path is cached by filename.  On a cache hit
(`cache.get` returns a non-empty string for `filename +
".METADATA.json"` in namespace `"sdist_build_metadata"`), `build_sdist`
performs no network I/O, no extraction and no build — the effect trace
is empty, so `build_sdist_impl` was not invoked — and returns the
record parsed from the cached value.  Moreover, once one `build_sdist`
call has succeeded against a readable and writable cache, every later
call for the same file answers from the shared cache with the same
record and an empty effect trace: the build driver runs at most once
per sdist filename, and zero times on a second resolution in the same
process. -/
theorem c3_sdist_cache {M : Type} (pm : String → Option M) (run : RunOracle)
    (osEnviron : List (String × String)) (w : SdistWorld) (file : File)
    (cache : Cache) :
    (∀ v, cache.get "sdist_build_metadata" (file.filename ++ ".METADATA.json")
          = some v → v ≠ "" →
      build_sdist pm run osEnviron w file cache
        = ((match pm v with
            | some m => Except.ok m
            | none => Except.error
                (SdistError.metadataCorrupt (parseFailureMsg file.filename))),
           cache, [])) ∧
    (∀ m c₂ effs, cache.read = true → cache.write = true → pm "" = none →
        build_sdist pm run osEnviron w file cache = (Except.ok m, c₂, effs) →
        ∀ (run₂ : RunOracle) (osEnviron₂ : List (String × String)) (w₂ : SdistWorld),
          build_sdist pm run₂ osEnviron₂ w₂ file c₂ = (Except.ok m, c₂, [])) := by
  constructor
  · intro v hget hv
    have hcm : cachedMetadata cache file.filename = some v := by
      simp [cachedMetadata, hget, hv]
    exact build_sdist_hit pm run osEnviron w file cache v hcm
  · intro m c₂ effs hread hwrite hpm hfirst run₂ osEnviron₂ w₂
    cases hcm : cachedMetadata cache file.filename with
    | some v =>
      rw [build_sdist_hit pm run osEnviron w file cache v hcm] at hfirst
      have h₁ := congrArg Prod.fst hfirst
      have h₂ := congrArg (fun p => p.2.1) hfirst
      simp only at h₁ h₂
      rw [← h₂, build_sdist_hit pm run₂ osEnviron₂ w₂ file cache v hcm, h₁]
    | none =>
      rcases hI : build_sdist_impl run osEnviron w file with ⟨res, effsI⟩
      cases res with
      | error e =>
        rw [build_sdist_miss_error pm run osEnviron w file cache e effsI hcm hI]
          at hfirst
        have h₁ := congrArg Prod.fst hfirst
        simp only at h₁
        exact absurd h₁ (by simp)
      | ok pr =>
        obtain ⟨j, cap⟩ := pr
        rw [build_sdist_miss_ok pm run osEnviron w file cache j cap effsI hcm hI]
          at hfirst
        have h₁ := congrArg Prod.fst hfirst
        have h₂ := congrArg (fun p => p.2.1) hfirst
        simp only at h₁ h₂
        have hj : pm j = some m := by
          cases hpj : pm j with
          | some m₁ =>
            rw [hpj] at h₁
            simp only [Except.ok.injEq] at h₁
            rw [h₁]
          | none =>
            rw [hpj] at h₁
            exact absurd h₁ (by simp)
        have hjne : j ≠ "" := by
          intro he
          rw [he, hpm] at hj
          exact Option.noConfusion hj
        have hcm₂ := cachedMetadata_after_set cache file.filename j hread hwrite hjne
        rw [← h₂, build_sdist_hit pm run₂ osEnviron₂ w₂ file _ j hcm₂, hj]

/-- Witness for C3: a cache holding metadata for `pkg-1.0.tar.gz`, and a
fresh build populating an empty cache followed by a cached second call. -/
theorem c3_witness :
    build_sdist (fun s => if s = "" then none else some s)
        (fun _ _ _ => ⟨"", "", 0⟩) [] ⟨["pkg"], [], ["pkg-1.0.dist-info"], "META"⟩
        ⟨"pkg-1.0.tar.gz", "https://u"⟩
        ⟨true, true, [(("sdist_build_metadata", "pkg-1.0.tar.gz.METADATA.json"), "CACHED")]⟩
      = (Except.ok "CACHED",
         ⟨true, true, [(("sdist_build_metadata", "pkg-1.0.tar.gz.METADATA.json"), "CACHED")]⟩,
         []) ∧
    build_sdist (fun s => if s = "" then none else some s)
        (fun _ _ _ => ⟨"", "", 0⟩) [] ⟨["pkg"], [], ["pkg-1.0.dist-info"], "META"⟩
        ⟨"pkg-1.0.tar.gz", "https://u"⟩
        (build_sdist (fun s => if s = "" then none else some s)
          (fun _ _ _ => ⟨"", "", 0⟩) [] ⟨["pkg"], [], ["pkg-1.0.dist-info"], "META"⟩
          ⟨"pkg-1.0.tar.gz", "https://u"⟩ ⟨true, true, []⟩).2.1
      = (Except.ok "META",
         (build_sdist (fun s => if s = "" then none else some s)
           (fun _ _ _ => ⟨"", "", 0⟩) [] ⟨["pkg"], [], ["pkg-1.0.dist-info"], "META"⟩
           ⟨"pkg-1.0.tar.gz", "https://u"⟩ ⟨true, true, []⟩).2.1,
         []) := by
  constructor
  · have h := (c3_sdist_cache (fun s => if s = "" then none else some s)
      (fun _ _ _ => ⟨"", "", 0⟩) [] ⟨["pkg"], [], ["pkg-1.0.dist-info"], "META"⟩
      ⟨"pkg-1.0.tar.gz", "https://u"⟩
      ⟨true, true, [(("sdist_build_metadata", "pkg-1.0.tar.gz.METADATA.json"), "CACHED")]⟩).1
      "CACHED" (by decide) (by decide)
    exact h
  · exact (c3_sdist_cache (fun s => if s = "" then none else some s)
      (fun _ _ _ => ⟨"", "", 0⟩) [] ⟨["pkg"], [], ["pkg-1.0.dist-info"], "META"⟩
      ⟨"pkg-1.0.tar.gz", "https://u"⟩ ⟨true, true, []⟩).2
      "META" _ _ rfl rfl rfl rfl
      (fun _ _ _ => ⟨"", "", 0⟩) [] ⟨["pkg"], [], ["pkg-1.0.dist-info"], "META"⟩


/-- C8: a metadata string that fails to parse after a successful build
(or out of the cache) makes `build_sdist` raise the metadata-corruption
error; its message names the sdist file, and the parse-failure message
can never coincide with a build-failure message, so the two error
classes stay distinct. -/
theorem c8_metadata_corrupt {M : Type} (pm : String → Option M)
    (run : RunOracle) (osEnviron : List (String × String)) (w : SdistWorld)
    (file : File) (cache : Cache) :
    (∀ v, cachedMetadata cache file.filename = some v → pm v = none →
      build_sdist pm run osEnviron w file cache
        = (Except.error (SdistError.metadataCorrupt (parseFailureMsg file.filename)),
           cache, [])) ∧
    (∀ j cap effs, cachedMetadata cache file.filename = none →
      build_sdist_impl run osEnviron w file = (Except.ok (j, cap), effs) →
      pm j = none →
      (build_sdist pm run osEnviron w file cache).1
        = Except.error (SdistError.metadataCorrupt (parseFailureMsg file.filename))) ∧
    (∃ s₁ s₂, parseFailureMsg file.filename = s₁ ++ file.filename ++ s₂) ∧
    (∀ f g e o r, parseFailureMsg f ≠ buildFailureMsg g e o r) := by
  refine ⟨?_, ?_, ?_, ?_⟩
  · intro v hcm hpv
    rw [build_sdist_hit pm run osEnviron w file cache v hcm, hpv]
  · intro j cap effs hcm hI hpj
    rw [build_sdist_miss_ok pm run osEnviron w file cache j cap effs hcm hI, hpj]
  · exact ⟨"Failed to parse sdist built metadata for ",
      ", this is most likely a bug", rfl⟩
  · intro f g e o r h
    have hd := congrArg (fun s => s.data[10]?) h
    simp only [parseFailureMsg, buildFailureMsg, String.data_append,
      List.append_assoc] at hd
    rw [List.getElem?_append_left (by decide), List.getElem?_append_left (by decide)]
      at hd
    exact absurd hd (by decide)

/-- Witness for C8: a cached value and a freshly built value that both
fail to parse under a parser rejecting everything. -/
theorem c8_witness :
    build_sdist (fun _ => (none : Option Unit)) (fun _ _ _ => ⟨"", "", 0⟩) []
        ⟨["pkg"], [], ["pkg-1.0.dist-info"], "META"⟩ ⟨"pkg-1.0.tar.gz", "https://u"⟩
        ⟨true, true, [(("sdist_build_metadata", "pkg-1.0.tar.gz.METADATA.json"), "BAD")]⟩
      = (Except.error (SdistError.metadataCorrupt (parseFailureMsg "pkg-1.0.tar.gz")),
         ⟨true, true, [(("sdist_build_metadata", "pkg-1.0.tar.gz.METADATA.json"), "BAD")]⟩,
         []) ∧
    (build_sdist (fun _ => (none : Option Unit)) (fun _ _ _ => ⟨"", "", 0⟩) []
        ⟨["pkg"], [], ["pkg-1.0.dist-info"], "META"⟩ ⟨"pkg-1.0.tar.gz", "https://u"⟩
        ⟨true, true, []⟩).1
      = Except.error (SdistError.metadataCorrupt (parseFailureMsg "pkg-1.0.tar.gz")) :=
  ⟨(c8_metadata_corrupt (fun _ => (none : Option Unit)) (fun _ _ _ => ⟨"", "", 0⟩) []
      ⟨["pkg"], [], ["pkg-1.0.dist-info"], "META"⟩ ⟨"pkg-1.0.tar.gz", "https://u"⟩
      ⟨true, true, [(("sdist_build_metadata", "pkg-1.0.tar.gz.METADATA.json"), "BAD")]⟩).1
      "BAD" rfl rfl,
   (c8_metadata_corrupt (fun _ => (none : Option Unit)) (fun _ _ _ => ⟨"", "", 0⟩) []
      ⟨["pkg"], [], ["pkg-1.0.dist-info"], "META"⟩ ⟨"pkg-1.0.tar.gz", "https://u"⟩
      ⟨true, true, []⟩).2.1 "META" ⟨"", ""⟩
      [Effect.download "https://u", Effect.extract "pkg-1.0.tar.gz",
       Effect.runBackend "pkg-1.0.tar.gz"] rfl rfl rfl⟩

theorem get_of_cachedMetadata (cache : Cache) (filename v : String)
    (h : cachedMetadata cache filename = some v) :
    cache.get "sdist_build_metadata" (filename ++ ".METADATA.json") = some v := by
  unfold cachedMetadata at h
  split at h
  next u heq =>
    split at h
    · exact Option.noConfusion h
    · rw [Option.some.injEq] at h
      rw [← h]
      exact heq
  next heq => exact Option.noConfusion h

/-- C10: the cached path refines the fresh-build path.  On a miss that
builds successfully against a readable, writable cache, the exact JSON
string the build produced is what gets stored under the filename key,
the call's result is that string parsed, and any later `build_sdist`
for the same file returns the very same result with the cache unchanged
and no I/O effects. -/
theorem c10_cache_fresh_equivalence {M : Type} (pm : String → Option M)
    (run : RunOracle) (osEnviron : List (String × String)) (w : SdistWorld)
    (file : File) (cache : Cache) (j : String) (cap : CaptureState)
    (effs : List Effect)
    (hread : cache.read = true) (hwrite : cache.write = true)
    (hmiss : cachedMetadata cache file.filename = none)
    (himpl : build_sdist_impl run osEnviron w file = (Except.ok (j, cap), effs))
    (hjne : j ≠ "") :
    ((build_sdist pm run osEnviron w file cache).2.1.get "sdist_build_metadata"
        (file.filename ++ ".METADATA.json") = some j) ∧
    ((build_sdist pm run osEnviron w file cache).1
      = (match pm j with
         | some m => Except.ok m
         | none => Except.error
             (SdistError.metadataCorrupt (parseFailureMsg file.filename)))) ∧
    (∀ (run₂ : RunOracle) (osEnviron₂ : List (String × String)) (w₂ : SdistWorld),
      build_sdist pm run₂ osEnviron₂ w₂ file
          ((build_sdist pm run osEnviron w file cache).2.1)
        = ((build_sdist pm run osEnviron w file cache).1,
           (build_sdist pm run osEnviron w file cache).2.1, [])) := by
  have hmk := build_sdist_miss_ok pm run osEnviron w file cache j cap effs hmiss himpl
  have hcm₂ := cachedMetadata_after_set cache file.filename j hread hwrite hjne
  refine ⟨?_, ?_, ?_⟩
  · rw [hmk]
    exact get_of_cachedMetadata _ _ _ hcm₂
  · rw [hmk]
  · intro run₂ osEnviron₂ w₂
    rw [hmk, build_sdist_hit pm run₂ osEnviron₂ w₂ file _ j hcm₂]

/-- Witness for C10 at a concrete miss-then-hit run. -/
theorem c10_witness :
    ((build_sdist (fun s => if s = "" then none else some s)
        (fun _ _ _ => ⟨"", "", 0⟩) [] ⟨["pkg"], [], ["pkg-1.0.dist-info"], "META"⟩
        ⟨"pkg-1.0.tar.gz", "https://u"⟩ ⟨true, true, []⟩).2.1.get
        "sdist_build_metadata" ("pkg-1.0.tar.gz" ++ ".METADATA.json") = some "META") ∧
    (build_sdist (fun s => if s = "" then none else some s)
        (fun _ _ _ => ⟨"", "", 0⟩) [] ⟨["pkg"], [], ["pkg-1.0.dist-info"], "META"⟩
        ⟨"pkg-1.0.tar.gz", "https://u"⟩
        ((build_sdist (fun s => if s = "" then none else some s)
          (fun _ _ _ => ⟨"", "", 0⟩) [] ⟨["pkg"], [], ["pkg-1.0.dist-info"], "META"⟩
          ⟨"pkg-1.0.tar.gz", "https://u"⟩ ⟨true, true, []⟩).2.1)
      = ((build_sdist (fun s => if s = "" then none else some s)
           (fun _ _ _ => ⟨"", "", 0⟩) [] ⟨["pkg"], [], ["pkg-1.0.dist-info"], "META"⟩
           ⟨"pkg-1.0.tar.gz", "https://u"⟩ ⟨true, true, []⟩).1,
         (build_sdist (fun s => if s = "" then none else some s)
           (fun _ _ _ => ⟨"", "", 0⟩) [] ⟨["pkg"], [], ["pkg-1.0.dist-info"], "META"⟩
           ⟨"pkg-1.0.tar.gz", "https://u"⟩ ⟨true, true, []⟩).2.1, [])) :=
  ⟨(c10_cache_fresh_equivalence (fun s => if s = "" then none else some s)
      (fun _ _ _ => ⟨"", "", 0⟩) [] ⟨["pkg"], [], ["pkg-1.0.dist-info"], "META"⟩
      ⟨"pkg-1.0.tar.gz", "https://u"⟩ ⟨true, true, []⟩ "META" ⟨"", ""⟩
      [Effect.download "https://u", Effect.extract "pkg-1.0.tar.gz",
       Effect.runBackend "pkg-1.0.tar.gz"]
      rfl rfl rfl rfl (by decide)).1,
   (c10_cache_fresh_equivalence (fun s => if s = "" then none else some s)
      (fun _ _ _ => ⟨"", "", 0⟩) [] ⟨["pkg"], [], ["pkg-1.0.dist-info"], "META"⟩
      ⟨"pkg-1.0.tar.gz", "https://u"⟩ ⟨true, true, []⟩ "META" ⟨"", ""⟩
      [Effect.download "https://u", Effect.extract "pkg-1.0.tar.gz",
       Effect.runBackend "pkg-1.0.tar.gz"]
      rfl rfl rfl rfl (by decide)).2.2
      (fun _ _ _ => ⟨"", "", 0⟩) [] ⟨["pkg"], [], ["pkg-1.0.dist-info"], "META"⟩⟩


end MonotrailResolve
